import Mathlib

/-!
Shallow embedding of lm-sensors `src/lib/access.c` (libsensors resolution and
evaluation core).  Machine doubles are modelled as exact rationals (`Rat`);
the libm functions `exp`/`log` and the raw I/O backend are opaque parameters
supplied through `SensorsEnv`.  C functions returning an error code and
writing through a `double *result` out-parameter are modelled as returning
`Int × Option Rat`: the error code together with the value written through
the pointer, if any (`none` = the callee never wrote `*result`).
-/

/-- Modelled from the spec: the bus constants of `sensors.h`, which is not in
`src/`; only their distinctness and the dedicated wildcard values matter. -/
def SENSORS_CHIP_NAME_BUS_ISA : Int := -1

/-- Modelled from the spec: bus wildcard constant of `sensors.h`. -/
def SENSORS_CHIP_NAME_BUS_ANY : Int := -2

/-- Modelled from the spec: the `AnyI2C` bus selector of `sensors.h`. -/
def SENSORS_CHIP_NAME_BUS_ANY_I2C : Int := -3

/-- Modelled from the spec: dummy bus constant of `sensors.h`. -/
def SENSORS_CHIP_NAME_BUS_DUMMY : Int := -4

/-- Modelled from the spec: PCI bus constant of `sensors.h`. -/
def SENSORS_CHIP_NAME_BUS_PCI : Int := -5

/-- Modelled from the spec: address wildcard constant of `sensors.h`. -/
def SENSORS_CHIP_NAME_ADDR_ANY : Int := -1

/-- Modelled from the spec: read-access bit of `sensors.h`. -/
def SENSORS_MODE_R : Nat := 1

/-- Modelled from the spec: write-access bit of `sensors.h`. -/
def SENSORS_MODE_W : Nat := 2

/-- Modelled from the spec: error codes of `error.h`, which is not in `src/`;
the spec's error taxonomy only needs them pairwise distinct. -/
def SENSORS_ERR_WILDCARDS : Int := 1

/-- Modelled from the spec: `UnknownFeature` error code of `error.h`. -/
def SENSORS_ERR_NO_ENTRY : Int := 2

/-- Modelled from the spec: read-access error code of `error.h`. -/
def SENSORS_ERR_ACCESS_R : Int := 3

/-- Modelled from the spec: write-access error code of `error.h`. -/
def SENSORS_ERR_ACCESS_W : Int := 4

/-- Modelled from the spec: raw I/O backend error code of `error.h`. -/
def SENSORS_ERR_PROC : Int := 5

/-- Modelled from the spec: division-by-zero error code of `error.h`. -/
def SENSORS_ERR_DIV_ZERO : Int := 6

/-- Embedding artifact: the C variable-reference recursion is unbounded
(cyclic `computes` directives diverge); the Lean functions take a fuel bound
and return this code when it runs out.  No claim depends on this value. -/
def SENSORS_ERR_FUEL : Int := 100

/-- Modelled from the spec: `sensors_chip_name` of `sensors.h` (ChipNamePattern).
`prefix_ = none` is `SENSORS_CHIP_NAME_PREFIX_ANY` (a NULL prefix). -/
structure sensors_chip_name where
  prefix_ : Option String
  bus : Int
  addr : Int
deriving DecidableEq, Repr

/-- Modelled from the spec: `sensors_feature_data` of `data.h` (FeatureDescriptor).
The sentinel `SENSORS_NO_MAPPING` of the two mapping fields is `none`. -/
structure sensors_feature_data where
  number : Int
  name : String
  mode : Nat
  mapping : Option Int
  compute_mapping : Option Int
deriving DecidableEq, Repr

/-- Modelled from the spec: the binary operators of `sensors_expr` (`data.h`). -/
inductive sensors_binop where
  | add
  | sub
  | multiply
  | divide
deriving DecidableEq, Repr

/-- Modelled from the spec: the unary operators of `sensors_expr` (`data.h`);
in the C struct these are `subexpr` nodes whose `sub2` is NULL. -/
inductive sensors_unop where
  | negate
  | exp
  | log
deriving DecidableEq, Repr

/-- Modelled from the spec: `sensors_expr` of `data.h` (ExpressionNode).
The C tagged union (kinds `val`, `source`, `var`, `subexpr`) is split into the
spec's five node kinds; `unaryop` covers `subexpr` nodes with `sub2 = NULL`. -/
inductive sensors_expr where
  | val (v : Rat)
  | source
  | var (name : String)
  | unaryop (op : sensors_unop) (sub1 : sensors_expr)
  | binaryop (op : sensors_binop) (sub1 : sensors_expr) (sub2 : sensors_expr)
deriving DecidableEq, Repr

/-- Modelled from the spec: a `labels` directive of a config entry (`data.h`). -/
structure sensors_chip_label where
  name : String
  value : String
deriving DecidableEq, Repr

/-- Modelled from the spec: an `ignores` directive of a config entry (`data.h`). -/
structure sensors_chip_ignore where
  name : String
deriving DecidableEq, Repr

/-- Modelled from the spec: a `computes` directive of a config entry (`data.h`). -/
structure sensors_chip_compute where
  name : String
  from_proc : sensors_expr
  to_proc : sensors_expr
deriving DecidableEq, Repr

/-- Modelled from the spec: a `sets` directive of a config entry (`data.h`). -/
structure sensors_chip_set where
  name : String
  value : sensors_expr
  lineno : Int
deriving DecidableEq, Repr

/-- Modelled from the spec: `sensors_chip` of `data.h` (ConfigChipEntry):
one config-file chip statement with its pattern list and directive lists. -/
structure sensors_chip where
  chips : List sensors_chip_name
  labels : List sensors_chip_label
  ignores : List sensors_chip_ignore
  computes : List sensors_chip_compute
  sets : List sensors_chip_set
deriving DecidableEq, Repr

/-- Modelled from the spec: the global data and external collaborators that
`access.c` reads: the static feature catalog (`sensors_chip_features_list`,
keyed by chip prefix), the parsed config entries (`sensors_config_chips`, in
declaration order), the detected chips (`sensors_proc_chips`), the raw I/O
backend (`sensors_read_proc` with `none` = failure, `sensors_write_proc` with
`true` = failure), the libm functions used by the evaluator, and `uninit`,
the value standing for an uninitialized C local `double`. -/
structure SensorsEnv where
  features_list : List (String × List sensors_feature_data)
  config_chips : List sensors_chip
  proc_chips : List sensors_chip_name
  read_proc : sensors_chip_name → Int → Option Rat
  write_proc : sensors_chip_name → Int → Rat → Bool
  expF : Rat → Rat
  logF : Rat → Rat
  uninit : Rat

/-- ASCII `tolower` on a character code, the folding used by `strcasecmp`. -/
def lowerCode (c : Char) : Nat :=
  if 65 ≤ c.toNat && c.toNat ≤ 90 then c.toNat + 32 else c.toNat

/-- ASCII case-insensitive string equality, the embedding of `strcasecmp(a,b) == 0`. -/
def strcaseEq (a b : String) : Bool :=
  a.data.map lowerCode == b.data.map lowerCode

/-- Embedding of `sensors_match_chip`'s final address test (access.c:66-69). -/
def sensors_match_addr (chip1 chip2 : sensors_chip_name) : Bool :=
  !(chip1.addr != chip2.addr && chip1.addr != SENSORS_CHIP_NAME_ADDR_ANY &&
    chip2.addr != SENSORS_CHIP_NAME_ADDR_ANY)

/-- Embedding of `sensors_match_chip` (access.c:42-72). -/
def sensors_match_chip (chip1 chip2 : sensors_chip_name) : Bool :=
  if chip1.prefix_.isSome && chip2.prefix_.isSome &&
     !strcaseEq (chip1.prefix_.getD "") (chip2.prefix_.getD "") then false
  else if chip1.bus != SENSORS_CHIP_NAME_BUS_ANY &&
          chip2.bus != SENSORS_CHIP_NAME_BUS_ANY &&
          chip1.bus != chip2.bus then
    if chip1.bus == SENSORS_CHIP_NAME_BUS_ISA ||
       chip2.bus == SENSORS_CHIP_NAME_BUS_ISA then false
    else if chip1.bus == SENSORS_CHIP_NAME_BUS_PCI ||
            chip2.bus == SENSORS_CHIP_NAME_BUS_PCI then false
    else if chip1.bus != SENSORS_CHIP_NAME_BUS_ANY_I2C &&
            chip2.bus != SENSORS_CHIP_NAME_BUS_ANY_I2C then false
    else sensors_match_addr chip1 chip2
  else sensors_match_addr chip1 chip2

/-- Embedding of `sensors_for_all_config_chips` (access.c:81-97): the C cursor
walk visits the config entries last-to-first and yields those with at least one
matching pattern; the embedding returns that whole matching sequence at once. -/
def sensors_for_all_config_chips (cfg : List sensors_chip)
    (chip_name : sensors_chip_name) : List sensors_chip :=
  cfg.reverse.filter (fun c => c.chips.any (fun p => sensors_match_chip p chip_name))

/-- Embedding of `sensors_lookup_feature_nr` (access.c:102-116); a NULL prefix
never occurs on the paths that call this (wildcards are rejected first). -/
def sensors_lookup_feature_nr (lst : List (String × List sensors_feature_data))
    (pfx : Option String) (feature : Int) : Option sensors_feature_data :=
  match pfx with
  | none => none
  | some p => ((lst.filter (fun fam => strcaseEq fam.1 p)).flatMap Prod.snd).find?
      (fun f => f.number == feature)

/-- Embedding of `sensors_lookup_feature_name` (access.c:121-135). -/
def sensors_lookup_feature_name (lst : List (String × List sensors_feature_data))
    (pfx : Option String) (feature : String) : Option sensors_feature_data :=
  match pfx with
  | none => none
  | some p => ((lst.filter (fun fam => strcaseEq fam.1 p)).flatMap Prod.snd).find?
      (fun f => strcaseEq f.name feature)

/-- Embedding of `sensors_chip_name_has_wildcards` (access.c:140-149). -/
def sensors_chip_name_has_wildcards (chip : sensors_chip_name) : Bool :=
  chip.prefix_.isNone || chip.bus == SENSORS_CHIP_NAME_BUS_ANY ||
  chip.bus == SENSORS_CHIP_NAME_BUS_ANY_I2C || chip.addr == SENSORS_CHIP_NAME_ADDR_ANY

/-- The spec's own wildcard-pattern definition, stated for comparison with the
source's `sensors_chip_name_has_wildcards`: a pattern is a wildcard pattern
exactly when some component is `ANY` (prefix `ANY`, bus `ANY`, address `ANY`). -/
def spec_has_wildcards (chip : sensors_chip_name) : Bool :=
  chip.prefix_.isNone || chip.bus == SENSORS_CHIP_NAME_BUS_ANY ||
  chip.addr == SENSORS_CHIP_NAME_ADDR_ANY

/-- Embedding of the label scan of `sensors_get_label` (access.c:167-176):
first case-insensitive hit over the matching entries, newest first. -/
def sensors_label_scan (entries : List sensors_chip) (featName : String) : Option String :=
  match entries with
  | [] => none
  | c :: rest =>
    match c.labels.find? (fun l => strcaseEq featName l.name) with
    | some l => some l.value
    | none => sensors_label_scan rest featName

/-- Embedding of `sensors_get_label` (access.c:155-183); the second component
is the returned `*result` string. -/
def sensors_get_label (env : SensorsEnv) (name : sensors_chip_name)
    (feature : Int) : Int × Option String :=
  if sensors_chip_name_has_wildcards name then (-SENSORS_ERR_WILDCARDS, none)
  else
    match sensors_lookup_feature_nr env.features_list name.prefix_ feature with
    | none => (-SENSORS_ERR_NO_ENTRY, none)
    | some featureptr =>
      match sensors_label_scan (sensors_for_all_config_chips env.config_chips name)
          featureptr.name with
      | some txt => (0, some txt)
      | none => (0, some featureptr.name)

/-- Embedding of the shared mapping-resolution step (access.c:198-203 and
232-236): `none` = the mapping is declared but its target is absent from the
catalog (an error); `some none` = no mapping declared; `some (some f)` = the
resolved alternate descriptor. -/
def sensors_resolve_mapping (lst : List (String × List sensors_feature_data))
    (pfx : Option String) (m : Option Int) : Option (Option sensors_feature_data) :=
  match m with
  | none => some none
  | some target =>
    match sensors_lookup_feature_nr lst pfx target with
    | none => none
    | some f => some (some f)

/-- Does `nm` match the alternate descriptor's name, if there is one
(the `alt_featureptr && !strcasecmp(...)` tests of access.c)? -/
def sensors_alt_name_matches (alt : Option String) (nm : String) : Bool :=
  match alt with
  | some a => strcaseEq a nm
  | none => false

/-- Embedding of the inner `ignores` loop of `sensors_get_ignored`
(access.c:205-211): first component is the early-return value when the exact
match fired, second is the updated tentative `res`. -/
def sensors_ignored_inner (igs : List sensors_chip_ignore) (mainName : String)
    (alt : Option String) (res : Int) : Option Int × Int :=
  match igs with
  | [] => (none, res)
  | ig :: rest =>
    if strcaseEq mainName ig.name then (some 0, res)
    else if sensors_alt_name_matches alt ig.name then
      sensors_ignored_inner rest mainName alt 0
    else sensors_ignored_inner rest mainName alt res

/-- Embedding of the outer config-entry loop of `sensors_get_ignored`
(access.c:204-212). -/
def sensors_ignored_loop (entries : List sensors_chip) (mainName : String)
    (alt : Option String) (res : Int) : Int :=
  match entries with
  | [] => res
  | c :: rest =>
    match sensors_ignored_inner c.ignores mainName alt res with
    | (some z, _) => z
    | (none, res2) => sensors_ignored_loop rest mainName alt res2

/-- Embedding of `sensors_get_ignored` (access.c:185-213); note the source
resolves the alternate through the `mapping` field (access.c:198-202). -/
def sensors_get_ignored (env : SensorsEnv) (name : sensors_chip_name)
    (feature : Int) : Int :=
  if sensors_chip_name_has_wildcards name then -SENSORS_ERR_WILDCARDS
  else
    match sensors_lookup_feature_nr env.features_list name.prefix_ feature with
    | none => -SENSORS_ERR_NO_ENTRY
    | some featureptr =>
      match sensors_resolve_mapping env.features_list name.prefix_ featureptr.mapping with
      | none => -SENSORS_ERR_NO_ENTRY
      | some altOpt =>
        sensors_ignored_loop (sensors_for_all_config_chips env.config_chips name)
          featureptr.name (altOpt.map sensors_feature_data.name) 1

/-- Embedding of the inner `computes` loop of `sensors_get_feature`
(access.c:241-249): `expr` and `finalE` are the C locals `expr` and
`final_expr`; a main-name match stores that directive's `from_proc` and stops
the inner loop, an alternate-name match stores `from_proc` but keeps scanning. -/
def sensors_computes_inner_from (computes : List sensors_chip_compute)
    (mainName : String) (alt : Option String)
    (expr : Option sensors_expr) (finalE : Bool) : Option sensors_expr × Bool :=
  match computes with
  | [] => (expr, finalE)
  | c :: rest =>
    if finalE then (expr, finalE)
    else if strcaseEq mainName c.name then
      sensors_computes_inner_from rest mainName alt (some c.from_proc) true
    else if sensors_alt_name_matches alt c.name then
      sensors_computes_inner_from rest mainName alt (some c.from_proc) finalE
    else sensors_computes_inner_from rest mainName alt expr finalE

/-- Embedding of the outer config-entry loop of `sensors_get_feature`
(access.c:239-240): the loop condition is `!expr && (chip = next match)`, so
the walk over older entries stops as soon as `expr` is set at all. -/
def sensors_computes_scan_from (entries : List sensors_chip) (mainName : String)
    (alt : Option String) (expr : Option sensors_expr) (finalE : Bool) :
    Option sensors_expr :=
  match entries with
  | [] => expr
  | c :: rest =>
    if expr.isSome then expr
    else
      match sensors_computes_inner_from c.computes mainName alt expr finalE with
      | (e2, f2) => sensors_computes_scan_from rest mainName alt e2 f2

/-- Embedding of the inner `computes` loop of `sensors_set_feature`
(access.c:285-292).  On a main-name match the source stores
`chip->computes->to_proc` (access.c:287), the `to` expression of the FIRST
directive of the entry, not of the matched index `i`; `allComputes` is the
entry's full directive list so that first directive stays reachable. -/
def sensors_computes_inner_to (allComputes computes : List sensors_chip_compute)
    (mainName : String) (alt : Option String)
    (expr : Option sensors_expr) (finalE : Bool) : Option sensors_expr × Bool :=
  match computes with
  | [] => (expr, finalE)
  | c :: rest =>
    if finalE then (expr, finalE)
    else if strcaseEq mainName c.name then
      sensors_computes_inner_to allComputes rest mainName alt
        (allComputes.head?.map sensors_chip_compute.to_proc) true
    else if sensors_alt_name_matches alt c.name then
      sensors_computes_inner_to allComputes rest mainName alt (some c.to_proc) finalE
    else sensors_computes_inner_to allComputes rest mainName alt expr finalE

/-- Embedding of the outer config-entry loop of `sensors_set_feature`
(access.c:283-284), with the same stop-on-any-match condition as the get side. -/
def sensors_computes_scan_to (entries : List sensors_chip) (mainName : String)
    (alt : Option String) (expr : Option sensors_expr) (finalE : Bool) :
    Option sensors_expr :=
  match entries with
  | [] => expr
  | c :: rest =>
    if expr.isSome then expr
    else
      match sensors_computes_inner_to c.computes c.computes mainName alt expr finalE with
      | (e2, f2) => sensors_computes_scan_to rest mainName alt e2 f2

/-- Embedding of `sensors_eval_expr` (access.c:360-416), with the recursive
call back into `sensors_get_feature` abstracted as `getf`.  The result pair is
the return code and the value written through `*result`, if any.  In the
variable case the source (access.c:379-381) runs
`if (!(res = sensors_get_feature(...))) return res; return 0;`, so a failing
get is reported as success with `*result` left as the callee left it; and an
absent name returns the positive `SENSORS_ERR_NO_ENTRY` (access.c:378).
`env.uninit` stands for the uninitialized C locals `res1`/`res2` when a
sub-evaluation reported success without writing them. -/
def sensors_eval_expr_aux (getf : Int → Int × Option Rat) (env : SensorsEnv)
    (name : sensors_chip_name) : sensors_expr → Rat → Int × Option Rat
  | .val v, _ => (0, some v)
  | .source, v => (0, some v)
  | .var nm, _ =>
    (match sensors_lookup_feature_name env.features_list name.prefix_ nm with
     | none => (SENSORS_ERR_NO_ENTRY, none)
     | some feature =>
       let r := getf feature.number
       if r.1 = 0 then r else (0, r.2))
  | .unaryop op s1, v =>
    (let r1 := sensors_eval_expr_aux getf env name s1 v
     if r1.1 ≠ 0 then (r1.1, none)
     else
       let res1 := r1.2.getD env.uninit
       match op with
       | .negate => (0, some (-res1))
       | .exp => (0, some (env.expF res1))
       | .log =>
         if res1 < 0 then (-SENSORS_ERR_DIV_ZERO, none) else (0, some (env.logF res1)))
  | .binaryop op s1 s2, v =>
    (let r1 := sensors_eval_expr_aux getf env name s1 v
     if r1.1 ≠ 0 then (r1.1, none)
     else
       let r2 := sensors_eval_expr_aux getf env name s2 v
       if r2.1 ≠ 0 then (r2.1, none)
       else
         let res1 := r1.2.getD env.uninit
         let res2 := r2.2.getD env.uninit
         match op with
         | .add => (0, some (res1 + res2))
         | .sub => (0, some (res1 - res2))
         | .multiply => (0, some (res1 * res2))
         | .divide =>
           if res2 = 0 then (-SENSORS_ERR_DIV_ZERO, none) else (0, some (res1 / res2)))

/-- Embedding of the body of `sensors_get_feature` (access.c:218-257), with
the evaluation of a found `computes` expression abstracted as `evalex` so that
the fuel dispatch below stays outside the body. -/
def sensors_get_feature_core (evalex : sensors_expr → Rat → Int × Option Rat)
    (env : SensorsEnv) (name : sensors_chip_name) (feature : Int) : Int × Option Rat :=
  if sensors_chip_name_has_wildcards name then (-SENSORS_ERR_WILDCARDS, none)
  else
    match sensors_lookup_feature_nr env.features_list name.prefix_ feature with
    | none => (-SENSORS_ERR_NO_ENTRY, none)
    | some main_feature =>
      match sensors_resolve_mapping env.features_list name.prefix_
          main_feature.compute_mapping with
      | none => (-SENSORS_ERR_NO_ENTRY, none)
      | some altOpt =>
        if main_feature.mode &&& SENSORS_MODE_R == 0 then (-SENSORS_ERR_ACCESS_R, none)
        else
          let expr := sensors_computes_scan_from
            (sensors_for_all_config_chips env.config_chips name)
            main_feature.name (altOpt.map sensors_feature_data.name) none false
          match env.read_proc name feature with
          | none => (-SENSORS_ERR_PROC, none)
          | some val =>
            match expr with
            | none => (0, some val)
            | some ex => evalex ex val

/-- Embedding of `sensors_get_feature` (access.c:218-257).  `fuel` bounds the
depth of the mutual recursion with the expression evaluator (variable
references re-enter `sensors_get_feature`); it is consumed only when a found
`computes` expression has to be evaluated, so every other behavior is
fuel-independent. -/
def sensors_get_feature : Nat → SensorsEnv → sensors_chip_name → Int →
    Int × Option Rat
  | 0, env, name, feature =>
    sensors_get_feature_core (fun _ _ => (-SENSORS_ERR_FUEL, none)) env name feature
  | Nat.succ f, env, name, feature =>
    sensors_get_feature_core
      (fun ex val => sensors_eval_expr_aux
        (fun nr => sensors_get_feature f env name nr) env name ex val)
      env name feature

/-- Embedding of `sensors_eval_expr` as called from outside (access.c:360):
the topmost chip context supplies `sensors_get_feature` with the given fuel
for nested variable references. -/
def sensors_eval_expr (fuel : Nat) (env : SensorsEnv) (name : sensors_chip_name)
    (e : sensors_expr) (v : Rat) : Int × Option Rat :=
  sensors_eval_expr_aux (fun nr => sensors_get_feature fuel env name nr) env name e v

/-- Embedding of `sensors_set_feature` (access.c:262-301).  The second
component records the raw value handed to `sensors_write_proc`, if the write
was attempted (`none` = an earlier error prevented the write).  The C local
`to_write` is initialized to `value`, so an evaluation that reports success
without writing leaves `value` in place (`getD value`). -/
def sensors_set_feature (fuel : Nat) (env : SensorsEnv) (name : sensors_chip_name)
    (feature : Int) (value : Rat) : Int × Option Rat :=
  if sensors_chip_name_has_wildcards name then (-SENSORS_ERR_WILDCARDS, none)
  else
    match sensors_lookup_feature_nr env.features_list name.prefix_ feature with
    | none => (-SENSORS_ERR_NO_ENTRY, none)
    | some main_feature =>
      match sensors_resolve_mapping env.features_list name.prefix_
          main_feature.compute_mapping with
      | none => (-SENSORS_ERR_NO_ENTRY, none)
      | some altOpt =>
        if main_feature.mode &&& SENSORS_MODE_W == 0 then (-SENSORS_ERR_ACCESS_W, none)
        else
          let expr := sensors_computes_scan_to
            (sensors_for_all_config_chips env.config_chips name)
            main_feature.name (altOpt.map sensors_feature_data.name) none false
          let doWrite : Rat → Int × Option Rat := fun v =>
            if env.write_proc name feature v then (-SENSORS_ERR_PROC, some v)
            else (0, some v)
          match expr with
          | none => doWrite value
          | some ex =>
            let r := sensors_eval_expr fuel env name ex value
            if r.1 ≠ 0 then (r.1, none)
            else doWrite (r.2.getD value)

/-- State of the `sensors_do_this_chip_sets` loops (access.c:421-472):
`feature_list` is the per-chip deduplication array, `err` the C `err` local,
`value` the C `value` local (which persists across iterations), `writes` the
instrumented trace of raw write attempts `(feature number, value)` issued via
`sensors_set_feature`, and `errors` the instrumented trace of every error
recorded into `err`, in order. -/
structure SetsState where
  feature_list : List Int
  err : Int
  value : Rat
  writes : List (Int × Rat)
  errors : List Int
deriving Repr

/-- Embedding of one iteration of the `sets` loop of
`sensors_do_this_chip_sets` (access.c:434-469).  An unresolvable name records
the positive `SENSORS_ERR_NO_ENTRY` (access.c:440) and continues; a feature
number already in `feature_list` is skipped; otherwise the number is appended
BEFORE the expression is evaluated, and evaluation or write failures record
the error and continue. -/
def sensors_sets_step (fuel : Nat) (env : SensorsEnv) (name : sensors_chip_name)
    (s : SetsState) (d : sensors_chip_set) : SetsState :=
  match sensors_lookup_feature_name env.features_list name.prefix_ d.name with
  | none =>
    { s with err := SENSORS_ERR_NO_ENTRY, errors := s.errors ++ [SENSORS_ERR_NO_ENTRY] }
  | some feature =>
    let feature_nr := feature.number
    if feature_nr ∈ s.feature_list then s
    else
      let s1 := { s with feature_list := s.feature_list ++ [feature_nr] }
      let r := sensors_eval_expr fuel env name d.value 0
      if r.1 ≠ 0 then { s1 with err := r.1, errors := s1.errors ++ [r.1] }
      else
        let value := r.2.getD s.value
        let w := sensors_set_feature fuel env name feature_nr value
        let s2 := { s1 with
          value := value,
          writes := s1.writes ++ (w.2.map (fun v => (feature_nr, v))).toList }
        if w.1 ≠ 0 then { s2 with err := w.1, errors := s2.errors ++ [w.1] } else s2

/-- Embedding of `sensors_do_this_chip_sets` (access.c:421-472): the nested
entry and directive loops share one state, so they are one fold over the
concatenated `sets` lists of the matching entries, newest first.  The C return
value is the `err` field of the final state. -/
def sensors_do_this_chip_sets (fuel : Nat) (env : SensorsEnv)
    (name : sensors_chip_name) : SetsState :=
  ((sensors_for_all_config_chips env.config_chips name).flatMap
      (fun c => c.sets)).foldl
    (sensors_sets_step fuel env name)
    { feature_list := [], err := 0, value := env.uninit, writes := [], errors := [] }

/-- Embedding of one iteration of the detected-chip loop of
`sensors_do_chip_sets` (access.c:482-487): `res` keeps the first nonzero
per-chip result; the error traces of all matching chips are concatenated. -/
def sensors_chip_sets_step (fuel : Nat) (env : SensorsEnv) (name : sensors_chip_name)
    (acc : Int × List Int) (found : sensors_chip_name) : Int × List Int :=
  if sensors_match_chip name found then
    let st := sensors_do_this_chip_sets fuel env found
    (if acc.1 = 0 then st.err else acc.1, acc.2 ++ st.errors)
  else acc

/-- Embedding of `sensors_do_chip_sets` (access.c:476-489): the C return value
is the first component; the second is the instrumented trace of all recorded
errors of the whole run, in order. -/
def sensors_do_chip_sets (fuel : Nat) (env : SensorsEnv)
    (name : sensors_chip_name) : Int × List Int :=
  env.proc_chips.foldl (sensors_chip_sets_step fuel env name) (0, [])

/-! Helper lemmas about the ignore scan. -/

theorem list_any_or_distrib {α : Type} (l : List α) (p q : α → Bool) :
    l.any (fun x => p x || q x) = (l.any p || l.any q) := by
  induction l with
  | nil => simp
  | cons x xs ih =>
    simp only [List.any_cons, ih]
    cases p x <;> cases q x <;> simp

theorem sensors_ignored_inner_fst (igs : List sensors_chip_ignore) (mainName : String)
    (alt : Option String) (res : Int) :
    (sensors_ignored_inner igs mainName alt res).1 =
      if igs.any (fun ig => strcaseEq mainName ig.name) then some 0 else none := by
  induction igs generalizing res with
  | nil => simp [sensors_ignored_inner]
  | cons ig rest ih =>
    by_cases h1 : strcaseEq mainName ig.name
    · simp [sensors_ignored_inner, h1]
    · by_cases h2 : sensors_alt_name_matches alt ig.name
      · simp [sensors_ignored_inner, h1, h2, ih]
      · simp [sensors_ignored_inner, h1, h2, ih]

theorem sensors_ignored_inner_snd (igs : List sensors_chip_ignore) (mainName : String)
    (alt : Option String) (res : Int)
    (h : igs.any (fun ig => strcaseEq mainName ig.name) = false) :
    (sensors_ignored_inner igs mainName alt res).2 =
      if igs.any (fun ig => sensors_alt_name_matches alt ig.name) then 0 else res := by
  induction igs generalizing res with
  | nil => simp [sensors_ignored_inner]
  | cons ig rest ih =>
    simp only [List.any_cons, Bool.or_eq_false_iff] at h
    by_cases h2 : sensors_alt_name_matches alt ig.name
    · simp [sensors_ignored_inner, h.1, h.2, h2, ih 0 h.2]
    · simp [sensors_ignored_inner, h.1, h.2, h2, ih res h.2]

theorem sensors_ignored_loop_spec (entries : List sensors_chip) (mainName : String)
    (alt : Option String) (res : Int) :
    sensors_ignored_loop entries mainName alt res =
      if entries.any (fun c => c.ignores.any
          (fun ig => strcaseEq mainName ig.name || sensors_alt_name_matches alt ig.name))
      then 0 else res := by
  induction entries generalizing res with
  | nil => simp [sensors_ignored_loop]
  | cons c rest ih =>
    simp only [sensors_ignored_loop]
    rcases hinner : sensors_ignored_inner c.ignores mainName alt res with ⟨f, r2⟩
    have hf := sensors_ignored_inner_fst c.ignores mainName alt res
    rw [hinner] at hf
    cases f with
    | some z =>
      by_cases hx : c.ignores.any (fun ig => strcaseEq mainName ig.name)
      · rw [if_pos hx] at hf
        simp only at hf
        injection hf with hz
        subst hz
        have hc : c.ignores.any (fun ig =>
            strcaseEq mainName ig.name || sensors_alt_name_matches alt ig.name) = true := by
          rw [list_any_or_distrib, hx]
          simp
        simp [List.any_cons, hc]
      · rw [if_neg hx] at hf
        exact absurd hf (by simp)
    | none =>
      by_cases hx : c.ignores.any (fun ig => strcaseEq mainName ig.name)
      · rw [if_pos hx] at hf
        exact absurd hf.symm (by simp)
      · have hs := sensors_ignored_inner_snd c.ignores mainName alt res
          (by simpa using hx)
        rw [hinner] at hs
        simp only at hs
        subst hs
        have hxf : (c.ignores.any fun ig => strcaseEq mainName ig.name) = false := by
          simpa using hx
        have hc : c.ignores.any (fun ig =>
            strcaseEq mainName ig.name || sensors_alt_name_matches alt ig.name) =
            c.ignores.any (fun ig => sensors_alt_name_matches alt ig.name) := by
          rw [list_any_or_distrib, hxf]
          simp
        simp only [List.any_cons, hc]
        by_cases ha : c.ignores.any (fun ig => sensors_alt_name_matches alt ig.name)
        · simp [ha, ih 0]
        · simp only [Bool.not_eq_true] at ha
          simp [ha, ih res]

/-- A concrete wildcard-free chip name shared by the concrete scenarios below. -/
def chipP : sensors_chip_name :=
  { prefix_ := some "p", bus := SENSORS_CHIP_NAME_BUS_ISA, addr := 0 }

/-- A config entry pattern that matches `chipP` exactly. -/
def patP : sensors_chip_name :=
  { prefix_ := some "p", bus := SENSORS_CHIP_NAME_BUS_ISA, addr := 0 }

/-- Concrete scenario for claim C5: feature 1 has `mapping = NONE` but a
`compute_mapping` whose target 99 is absent from the catalog. -/
def envC5x : SensorsEnv :=
  { features_list := [("p", [{ number := 1, name := "f1", mode := 1,
                               mapping := none, compute_mapping := some 99 }])],
    config_chips := [{ chips := [patP], labels := [], ignores := [{ name := "g" }],
                       computes := [], sets := [] }],
    proc_chips := [],
    read_proc := fun _ _ => none, write_proc := fun _ _ _ => false,
    expF := fun x => x, logF := fun x => x, uninit := 0 }

/-- C5, counterexample: the claim says `get_ignored` resolves the alternate via
`compute_mapping`, so a declared `compute_mapping` with an absent target (feature 1
of `envC5x`) should fail with `UnknownFeature`; the code resolves via `mapping`
(which is `NONE` here) and happily returns 1 (`Visible`). -/
theorem C5_counterexample :
    sensors_get_ignored envC5x chipP 1 = 1 ∧ (1 : Int) ≠ -SENSORS_ERR_NO_ENTRY := by
  exact ⟨by decide, by decide⟩

/-- C5, amended: `get_ignored` resolves the queried feature's alternate through
the `mapping` field of its descriptor (not `compute_mapping`): when `mapping` is
`NONE` there is no alternate and only the main name is consulted in the
`ignores` lists, and when `mapping` is declared but its target feature number is
absent from the catalog, `get_ignored` fails with `UnknownFeature`. -/
theorem C5_amended (env : SensorsEnv) (name : sensors_chip_name) (feature : Int)
    (fp : sensors_feature_data)
    (hw : sensors_chip_name_has_wildcards name = false)
    (hf : sensors_lookup_feature_nr env.features_list name.prefix_ feature = some fp) :
    (fp.mapping = none → sensors_get_ignored env name feature =
      (if (sensors_for_all_config_chips env.config_chips name).any
           (fun c => c.ignores.any (fun ig => strcaseEq fp.name ig.name))
       then 0 else 1)) ∧
    (∀ m, fp.mapping = some m →
      sensors_lookup_feature_nr env.features_list name.prefix_ m = none →
      sensors_get_ignored env name feature = -SENSORS_ERR_NO_ENTRY) := by
  constructor
  · intro hm
    simp only [sensors_get_ignored, hw, hf, sensors_resolve_mapping, hm,
      Bool.false_eq_true, if_false, Option.map_none']
    rw [sensors_ignored_loop_spec]
    simp [sensors_alt_name_matches]
  · intro m hm hnone
    simp [sensors_get_ignored, hw, hf, sensors_resolve_mapping, hm, hnone]

/-- Concrete scenario exercising both parts of the amended C5. -/
def envC5w : SensorsEnv :=
  { features_list := [("p", [{ number := 1, name := "f1", mode := 1,
                               mapping := none, compute_mapping := some 99 },
                             { number := 2, name := "f2", mode := 1,
                               mapping := some 99, compute_mapping := none }])],
    config_chips := [{ chips := [patP], labels := [], ignores := [{ name := "F1" }],
                       computes := [], sets := [] }],
    proc_chips := [],
    read_proc := fun _ _ => none, write_proc := fun _ _ _ => false,
    expF := fun x => x, logF := fun x => x, uninit := 0 }

/-- C5, witness for the amended theorem at a concrete input. -/
theorem C5_amended_witness :
    sensors_get_ignored envC5w chipP 1 = 0 ∧
    sensors_get_ignored envC5w chipP 2 = -SENSORS_ERR_NO_ENTRY := by
  constructor
  · have h := (C5_amended envC5w chipP 1
      { number := 1, name := "f1", mode := 1, mapping := none, compute_mapping := some 99 }
      (by decide) (by decide)).1 rfl
    rw [h]
    decide
  · exact (C5_amended envC5w chipP 2
      { number := 2, name := "f2", mode := 1, mapping := some 99, compute_mapping := none }
      (by decide) (by decide)).2 99 rfl (by decide)

/-- C6: for a concrete chip and a resolvable feature (including its
`mapping`-linked alternate), `get_ignored` returns `Ignored` (0) exactly when
some matching config entry's `ignores` list contains a case-insensitive match
on the main descriptor's name or on the alternate descriptor's name, and
`Visible` (1) otherwise; in particular an exact main-name match always yields
`Ignored` regardless of scan order, and so does an alternate-only match. -/
theorem C6_ignores_exact_and_alt (env : SensorsEnv) (name : sensors_chip_name)
    (feature : Int) (fp : sensors_feature_data) (altOpt : Option sensors_feature_data)
    (hw : sensors_chip_name_has_wildcards name = false)
    (hf : sensors_lookup_feature_nr env.features_list name.prefix_ feature = some fp)
    (ha : sensors_resolve_mapping env.features_list name.prefix_ fp.mapping = some altOpt) :
    sensors_get_ignored env name feature =
      if (sensors_for_all_config_chips env.config_chips name).any
           (fun c => c.ignores.any (fun ig => strcaseEq fp.name ig.name ||
              sensors_alt_name_matches (altOpt.map sensors_feature_data.name) ig.name))
      then 0 else 1 := by
  simp only [sensors_get_ignored, hw, hf, ha, Bool.false_eq_true, if_false]
  rw [sensors_ignored_loop_spec]

/-- Concrete scenario for the C6 witness: feature 1 maps to feature 2, whose
name appears (in different case) in the sole matching entry's ignores. -/
def envC6w : SensorsEnv :=
  { features_list := [("p", [{ number := 1, name := "f1", mode := 1,
                               mapping := some 2, compute_mapping := none },
                             { number := 2, name := "alt", mode := 1,
                               mapping := none, compute_mapping := none }])],
    config_chips := [{ chips := [patP], labels := [], ignores := [{ name := "ALT" }],
                       computes := [], sets := [] }],
    proc_chips := [],
    read_proc := fun _ _ => none, write_proc := fun _ _ _ => false,
    expF := fun x => x, logF := fun x => x, uninit := 0 }

/-- C6, witness: the alternate-only (and case-insensitive) match yields `Ignored`. -/
theorem C6_witness : sensors_get_ignored envC6w chipP 1 = 0 := by
  have h := C6_ignores_exact_and_alt envC6w chipP 1
    { number := 1, name := "f1", mode := 1, mapping := some 2, compute_mapping := none }
    (some { number := 2, name := "alt", mode := 1, mapping := none, compute_mapping := none })
    (by decide) (by decide) (by decide)
  rw [h]
  decide

/-! Helper lemmas about the computes scan. -/

theorem sensors_computes_scan_from_some (entries : List sensors_chip) (mainName : String)
    (alt : Option String) (e : sensors_expr) (finalE : Bool) :
    sensors_computes_scan_from entries mainName alt (some e) finalE = some e := by
  cases entries with
  | nil => rfl
  | cons c rest => simp [sensors_computes_scan_from]

theorem sensors_computes_inner_from_final (computes : List sensors_chip_compute)
    (mainName : String) (alt : Option String) (acc : Option sensors_expr) :
    sensors_computes_inner_from computes mainName alt acc true = (acc, true) := by
  cases computes with
  | nil => rfl
  | cons c rest => simp [sensors_computes_inner_from]

/-- Concrete scenario for claim C4: the newer entry (scanned first) carries
only an alternate-name computes directive (`from` = 111), the older entry a
main-name directive (`from` = 222); feature 1 has main name "main" and
compute-maps to feature 2 named "altn". -/
def envC4 : SensorsEnv :=
  { features_list := [("p", [{ number := 1, name := "main", mode := 1,
                               mapping := none, compute_mapping := some 2 },
                             { number := 2, name := "altn", mode := 1,
                               mapping := none, compute_mapping := none }])],
    config_chips := [{ chips := [patP], labels := [], ignores := [],
                       computes := [{ name := "main", from_proc := .val 222,
                                      to_proc := .val 0 }],
                       sets := [] },
                     { chips := [patP], labels := [], ignores := [],
                       computes := [{ name := "altn", from_proc := .val 111,
                                      to_proc := .val 0 }],
                       sets := [] }],
    proc_chips := [],
    read_proc := fun _ _ => some 50, write_proc := fun _ _ _ => false,
    expF := fun x => x, logF := fun x => x, uninit := 0 }

/-- C4, counterexample: the claim says an alternate-name computes match is only
tentative and the scan of later (older) entries continues until a main-name
match is found, so `get_value` on `envC4` should apply the main-name
from-expression (222).  The code stops walking older entries as soon as any
expression is recorded (access.c:240 `!expr &&`), so the alternate match of the
newest entry wins and the result is 111. -/
theorem C4_counterexample :
    sensors_get_feature 1 envC4 chipP 1 = (0, some 111) ∧ (111 : Rat) ≠ 222 := by
  exact ⟨by decide, by decide⟩

/-- C4, amended: in `get_value`'s search for a "from" compute expression over
matching config entries scanned newest-declaration-first, an alternate-name
match is tentative only within the entry where it occurs: the scan of that
entry's computes list continues, and a main-name directive found there ends the
entry scan immediately with its own from-expression; but once an entry has
produced any match (main or alternate), no later-scanned (older) entry is
examined, so an alternate-name match in a newer entry beats a main-name match
in an older one. -/
theorem C4_amended (mainName : String) (alt : Option String) :
    (∀ (c : sensors_chip) (rest : List sensors_chip) (e : sensors_expr) (f2 : Bool),
      sensors_computes_inner_from c.computes mainName alt none false = (some e, f2) →
      sensors_computes_scan_from (c :: rest) mainName alt none false = some e) ∧
    (∀ (d : sensors_chip_compute) (ds : List sensors_chip_compute)
        (acc : Option sensors_expr),
      strcaseEq mainName d.name = true →
      sensors_computes_inner_from (d :: ds) mainName alt acc false =
        (some d.from_proc, true)) := by
  constructor
  · intro c rest e f2 hinner
    simp only [sensors_computes_scan_from, Option.isSome_none, Bool.false_eq_true,
      if_false, hinner]
    exact sensors_computes_scan_from_some rest mainName alt e f2
  · intro d ds acc hmain
    simp only [sensors_computes_inner_from, Bool.false_eq_true, if_false, hmain,
      if_true]
    exact sensors_computes_inner_from_final ds mainName alt (some d.from_proc)

/-- C4, witness for the amended theorem at concrete inputs: the first conjunct
applied to an entry whose only computes directive matches the alternate name,
the second to a directive list headed by a main-name match. -/
theorem C4_amended_witness :
    sensors_computes_scan_from
      [{ chips := [patP], labels := [], ignores := [],
         computes := [{ name := "altn", from_proc := .val 7, to_proc := .val 8 }],
         sets := [] },
       { chips := [patP], labels := [], ignores := [],
         computes := [{ name := "main", from_proc := .val 9, to_proc := .val 10 }],
         sets := [] }] "main" (some "altn") none false = some (.val 7) ∧
    sensors_computes_inner_from
      [{ name := "MAIN", from_proc := .val 3, to_proc := .val 4 },
       { name := "altn", from_proc := .val 5, to_proc := .val 6 }]
      "main" (some "altn") none false = (some (.val 3), true) := by
  constructor
  · exact (C4_amended "main" (some "altn")).1 _ _ (.val 7) false (by decide)
  · exact (C4_amended "main" (some "altn")).2
      { name := "MAIN", from_proc := .val 3, to_proc := .val 4 }
      [{ name := "altn", from_proc := .val 5, to_proc := .val 6 }] none (by decide)

/-- Concrete scenario for claim C1: feature 1 ("feat", readable and writable)
is matched by one config entry whose computes list holds an unrelated directive
at index 0 (to-expression 100) and the directive for "feat" at index 1
(to-expression 5); the raw write always succeeds. -/
def envC1 : SensorsEnv :=
  { features_list := [("p", [{ number := 1, name := "feat", mode := 3,
                               mapping := none, compute_mapping := none }])],
    config_chips := [{ chips := [patP], labels := [], ignores := [],
                       computes := [{ name := "other", from_proc := .val 0,
                                      to_proc := .val 100 },
                                    { name := "feat", from_proc := .val 0,
                                      to_proc := .val 5 }],
                       sets := [] }],
    proc_chips := [],
    read_proc := fun _ _ => some 50, write_proc := fun _ _ _ => false,
    expF := fun x => x, logF := fun x => x, uninit := 0 }

/-- C1: `set_value` is claimed to convert the caller's value with the "to"
expression of the very computes directive whose name matched (index 1 of
`envC1`, yielding a raw write of 5).  The code's main-name branch reads
`chip->computes->to_proc` (access.c:287), the to-expression of the FIRST
directive of the entry, so the raw value actually written is 100. -/
theorem C1_set_value_uses_first_directive_to_expr :
    sensors_set_feature 1 envC1 chipP 1 7 = (0, some 100) ∧ (100 : Rat) ≠ 5 := by
  exact ⟨by decide, by decide⟩

/-- Concrete scenario for claim C2: feature 1 is named "x", readable, with no
computes directives anywhere, but the raw I/O backend fails every read, so
`sensors_get_feature` fails with the I/O error. -/
def envC2 : SensorsEnv :=
  { features_list := [("p", [{ number := 1, name := "x", mode := 1,
                               mapping := none, compute_mapping := none }])],
    config_chips := [], proc_chips := [],
    read_proc := fun _ _ => none, write_proc := fun _ _ _ => false,
    expF := fun x => x, logF := fun x => x, uninit := 0 }

/-- C2: evaluating `VariableRef("x")` is claimed to return exactly the result
of the get-feature operation, propagating its error.  On `envC2` the
get-feature operation fails with the I/O error, yet the evaluator's
variable case (access.c:379-381, `if (!(res = sensors_get_feature(...)))
return res; return 0;`) turns the failure into return code 0 with `*result`
never written. -/
theorem C2_eval_var_swallows_get_error :
    sensors_get_feature 1 envC2 chipP 1 = (-SENSORS_ERR_PROC, none) ∧
    sensors_eval_expr 1 envC2 chipP (.var "x") 0 = (0, none) := by
  exact ⟨by decide, by decide⟩

/-- C7: for every chip, source value and subexpressions, `evaluate(Div(a,b))`
fails with `DivisionByZero` exactly when `b` evaluates to 0 and otherwise
returns `a/b`; `evaluate(Log(x))` fails with the same error kind exactly when
`x` evaluates to a value less than 0 and otherwise returns `ln(x)`; and a
failure of an operand short-circuits before the operation is applied. -/
theorem C7_div_log_semantics (fuel : Nat) (env : SensorsEnv)
    (name : sensors_chip_name) (a b x : sensors_expr) (v ra rb rx : Rat) :
    (sensors_eval_expr fuel env name a v = (0, some ra) →
      sensors_eval_expr fuel env name b v = (0, some rb) →
      sensors_eval_expr fuel env name (.binaryop .divide a b) v =
        if rb = 0 then (-SENSORS_ERR_DIV_ZERO, none) else (0, some (ra / rb))) ∧
    (sensors_eval_expr fuel env name x v = (0, some rx) →
      sensors_eval_expr fuel env name (.unaryop .log x) v =
        if rx < 0 then (-SENSORS_ERR_DIV_ZERO, none) else (0, some (env.logF rx))) ∧
    ((sensors_eval_expr fuel env name a v).1 ≠ 0 →
      sensors_eval_expr fuel env name (.binaryop .divide a b) v =
        ((sensors_eval_expr fuel env name a v).1, none)) ∧
    (sensors_eval_expr fuel env name a v = (0, some ra) →
      (sensors_eval_expr fuel env name b v).1 ≠ 0 →
      sensors_eval_expr fuel env name (.binaryop .divide a b) v =
        ((sensors_eval_expr fuel env name b v).1, none)) ∧
    ((sensors_eval_expr fuel env name x v).1 ≠ 0 →
      sensors_eval_expr fuel env name (.unaryop .log x) v =
        ((sensors_eval_expr fuel env name x v).1, none)) := by
  refine ⟨?_, ?_, ?_, ?_, ?_⟩
  · intro ha hb
    simp only [sensors_eval_expr] at ha hb ⊢
    simp only [sensors_eval_expr_aux, ha, hb]
    simp
  · intro hx
    simp only [sensors_eval_expr] at hx ⊢
    simp only [sensors_eval_expr_aux, hx]
    simp
  · intro ha
    simp only [sensors_eval_expr] at ha ⊢
    simp only [sensors_eval_expr_aux]
    simp [ha]
  · intro ha hb
    simp only [sensors_eval_expr] at ha hb ⊢
    simp only [sensors_eval_expr_aux, ha]
    simp [hb]
  · intro hx
    simp only [sensors_eval_expr] at hx ⊢
    simp only [sensors_eval_expr_aux]
    simp [hx]

/-- A trivial environment for pure expression evaluation. -/
def envNul : SensorsEnv :=
  { features_list := [], config_chips := [], proc_chips := [],
    read_proc := fun _ _ => none, write_proc := fun _ _ _ => false,
    expF := fun q => q, logF := fun q => q, uninit := 0 }

/-- C7, witness: division by zero fails, 4/2 evaluates to 2, and the logarithm
of a negative constant fails with the division-by-zero error kind. -/
theorem C7_witness :
    sensors_eval_expr 0 envNul chipP (.binaryop .divide (.val 4) (.val 0)) 0 =
      (-SENSORS_ERR_DIV_ZERO, none) ∧
    sensors_eval_expr 0 envNul chipP (.binaryop .divide (.val 4) (.val 2)) 0 =
      (0, some 2) ∧
    sensors_eval_expr 0 envNul chipP (.unaryop .log (.val (-1))) 0 =
      (-SENSORS_ERR_DIV_ZERO, none) := by
  refine ⟨?_, ?_, ?_⟩
  · have h := (C7_div_log_semantics 0 envNul chipP (.val 4) (.val 0) (.val 0)
      0 4 0 0).1 rfl rfl
    simpa using h
  · have h := (C7_div_log_semantics 0 envNul chipP (.val 4) (.val 2) (.val 2)
      0 4 2 0).1 rfl rfl
    rw [h]
    norm_num
  · have h := (C7_div_log_semantics 0 envNul chipP (.val 4) (.val 0) (.val (-1))
      0 4 0 (-1)).2.1 rfl
    rw [h]
    norm_num

/-! Helper lemmas about the per-chip sets state. -/

theorem sensors_sets_step_inv (fuel : Nat) (env : SensorsEnv) (name : sensors_chip_name)
    (s : SetsState) (d : sensors_chip_set)
    (h1 : (s.writes.map Prod.fst).Nodup)
    (h2 : ∀ n ∈ s.writes.map Prod.fst, n ∈ s.feature_list) :
    ((sensors_sets_step fuel env name s d).writes.map Prod.fst).Nodup ∧
    ∀ n ∈ (sensors_sets_step fuel env name s d).writes.map Prod.fst,
      n ∈ (sensors_sets_step fuel env name s d).feature_list := by
  simp only [sensors_sets_step]
  cases hl : sensors_lookup_feature_name env.features_list name.prefix_ d.name with
  | none => exact ⟨h1, h2⟩
  | some f =>
    by_cases hmem : f.number ∈ s.feature_list
    · simp only [if_pos hmem]
      exact ⟨h1, h2⟩
    · simp only [if_neg hmem]
      by_cases hr : (sensors_eval_expr fuel env name d.value 0).1 ≠ 0
      · simp only [if_pos hr]
        refine ⟨h1, ?_⟩
        intro n hn
        exact List.mem_append_left _ (h2 n hn)
      · simp only [if_neg hr]
        cases hw : (sensors_set_feature fuel env name f.number
            ((sensors_eval_expr fuel env name d.value 0).2.getD s.value)).2 with
        | none =>
          by_cases hw1 : (sensors_set_feature fuel env name f.number
              ((sensors_eval_expr fuel env name d.value 0).2.getD s.value)).1 ≠ 0
          · simp only [hw, if_pos hw1]
            refine ⟨by simpa using h1, ?_⟩
            intro n hn
            simp only [Option.map_none', Option.toList_none, List.append_nil] at hn
            exact List.mem_append_left _ (h2 n hn)
          · simp only [hw, if_neg hw1]
            refine ⟨by simpa using h1, ?_⟩
            intro n hn
            simp only [Option.map_none', Option.toList_none, List.append_nil] at hn
            exact List.mem_append_left _ (h2 n hn)
        | some wv =>
          have hkey : (((s.writes ++ [(f.number, wv)]).map Prod.fst).Nodup ∧
              ∀ n ∈ (s.writes ++ [(f.number, wv)]).map Prod.fst,
                n ∈ s.feature_list ++ [f.number]) := by
            constructor
            · rw [List.map_append]
              rw [List.nodup_append]
              refine ⟨h1, by simp, ?_⟩
              intro n hn hn2
              simp only [List.map_cons, List.map_nil, List.mem_singleton] at hn2
              subst hn2
              exact hmem (h2 _ hn)
            · intro n hn
              rw [List.map_append] at hn
              rcases List.mem_append.mp hn with hn | hn
              · exact List.mem_append_left _ (h2 n hn)
              · simp only [List.map_cons, List.map_nil, List.mem_singleton] at hn
                subst hn
                exact List.mem_append_right _ (by simp)
          by_cases hw1 : (sensors_set_feature fuel env name f.number
              ((sensors_eval_expr fuel env name d.value 0).2.getD s.value)).1 ≠ 0
          · simp only [hw, if_pos hw1]
            simpa using hkey
          · simp only [hw, if_neg hw1]
            simpa using hkey

theorem sensors_sets_fold_inv (fuel : Nat) (env : SensorsEnv) (name : sensors_chip_name)
    (ds : List sensors_chip_set) (s : SetsState)
    (h1 : (s.writes.map Prod.fst).Nodup)
    (h2 : ∀ n ∈ s.writes.map Prod.fst, n ∈ s.feature_list) :
    (((ds.foldl (sensors_sets_step fuel env name) s).writes.map Prod.fst).Nodup ∧
     ∀ n ∈ (ds.foldl (sensors_sets_step fuel env name) s).writes.map Prod.fst,
       n ∈ (ds.foldl (sensors_sets_step fuel env name) s).feature_list) := by
  induction ds generalizing s with
  | nil => exact ⟨h1, h2⟩
  | cons d rest ih =>
    simp only [List.foldl_cons]
    obtain ⟨g1, g2⟩ := sensors_sets_step_inv fuel env name s d h1 h2
    exact ih _ g1 g2

/-- C8: within one invocation of the bulk-set executor, the per-chip
processing issues at most one raw write per concrete feature number: the trace
of write attempts of `sensors_do_this_chip_sets` never repeats a feature
number, however many matching entries or directives name the same feature. -/
theorem C8_no_duplicate_writes (fuel : Nat) (env : SensorsEnv)
    (name : sensors_chip_name) :
    ((sensors_do_this_chip_sets fuel env name).writes.map Prod.fst).Nodup := by
  exact (sensors_sets_fold_inv fuel env name _ _ (by simp) (by simp)).1

/-- C10: in the per-chip processing of the bulk-set executor, a directive whose
name resolves to feature number `n` puts `n` into the deduplication set no
matter how the rest of the iteration goes (in the source the number is appended
before the expression is evaluated or the write attempted, access.c:451-453),
the set only ever grows, and a directive resolving to an already-recorded
number is a complete no-op — so after a first, possibly failing, directive for
`n`, every later duplicate directive for `n` is skipped and the feature is
never retried. -/
theorem C10_dedup_before_attempt (fuel : Nat) (env : SensorsEnv)
    (name : sensors_chip_name) :
    (∀ (s : SetsState) (d : sensors_chip_set) (f : sensors_feature_data),
      sensors_lookup_feature_name env.features_list name.prefix_ d.name = some f →
      f.number ∈ (sensors_sets_step fuel env name s d).feature_list) ∧
    (∀ (s : SetsState) (d : sensors_chip_set) (f : sensors_feature_data),
      sensors_lookup_feature_name env.features_list name.prefix_ d.name = some f →
      f.number ∈ s.feature_list →
      sensors_sets_step fuel env name s d = s) ∧
    (∀ (s : SetsState) (d : sensors_chip_set) (n : Int),
      n ∈ s.feature_list → n ∈ (sensors_sets_step fuel env name s d).feature_list) := by
  refine ⟨?_, ?_, ?_⟩
  · intro s d f hl
    simp only [sensors_sets_step, hl]
    by_cases hmem : f.number ∈ s.feature_list
    · simp [hmem]
    · simp only [if_neg hmem]
      by_cases hr : (sensors_eval_expr fuel env name d.value 0).1 ≠ 0
      · simp [hr]
      · simp only [if_neg hr]
        by_cases hw1 : (sensors_set_feature fuel env name f.number
            ((sensors_eval_expr fuel env name d.value 0).2.getD s.value)).1 ≠ 0
        · simp [hw1]
        · simp [hw1]
  · intro s d f hl hmem
    simp [sensors_sets_step, hl, hmem]
  · intro s d n hn
    simp only [sensors_sets_step]
    cases hl : sensors_lookup_feature_name env.features_list name.prefix_ d.name with
    | none => simpa using hn
    | some f =>
      by_cases hmem : f.number ∈ s.feature_list
      · simpa [hmem] using hn
      · simp only [if_neg hmem]
        by_cases hr : (sensors_eval_expr fuel env name d.value 0).1 ≠ 0
        · simp only [if_pos hr]
          exact List.mem_append_left _ hn
        · simp only [if_neg hr]
          by_cases hw1 : (sensors_set_feature fuel env name f.number
              ((sensors_eval_expr fuel env name d.value 0).2.getD s.value)).1 ≠ 0
          · simp only [if_pos hw1]
            exact List.mem_append_left _ hn
          · simp only [if_neg hw1]
            exact List.mem_append_left _ hn

/-- Concrete scenario for the C10 witness: one catalog feature number 5. -/
def envC10 : SensorsEnv :=
  { features_list := [("p", [{ number := 5, name := "f5", mode := 3,
                               mapping := none, compute_mapping := none }])],
    config_chips := [], proc_chips := [],
    read_proc := fun _ _ => some 1, write_proc := fun _ _ _ => false,
    expF := fun q => q, logF := fun q => q, uninit := 0 }

/-- C10, witness at a concrete state and directive: the fresh directive records
feature 5, a state already holding 5 makes the same directive a no-op, and
membership of 5 is preserved by the step. -/
theorem C10_witness :
    (5 : Int) ∈ (sensors_sets_step 1 envC10 chipP
      { feature_list := [], err := 0, value := 0, writes := [], errors := [] }
      { name := "f5", value := .val 1, lineno := 1 }).feature_list ∧
    sensors_sets_step 1 envC10 chipP
      { feature_list := [5], err := 0, value := 0, writes := [], errors := [] }
      { name := "f5", value := .val 1, lineno := 1 } =
      { feature_list := [5], err := 0, value := 0, writes := [], errors := [] } ∧
    (5 : Int) ∈ (sensors_sets_step 1 envC10 chipP
      { feature_list := [5], err := 0, value := 0, writes := [], errors := [] }
      { name := "f5", value := .val 1, lineno := 1 }).feature_list := by
  refine ⟨?_, ?_, ?_⟩
  · exact (C10_dedup_before_attempt 1 envC10 chipP).1 _ _
      { number := 5, name := "f5", mode := 3, mapping := none, compute_mapping := none }
      (by decide)
  · exact (C10_dedup_before_attempt 1 envC10 chipP).2.1 _ _
      { number := 5, name := "f5", mode := 3, mapping := none, compute_mapping := none }
      (by decide) (by decide)
  · exact (C10_dedup_before_attempt 1 envC10 chipP).2.2 _ _ 5 (by decide)

/-! Helper lemmas about error recording in the bulk-set executor. -/

theorem sensors_sets_step_err_last (fuel : Nat) (env : SensorsEnv)
    (name : sensors_chip_name) (s : SetsState) (d : sensors_chip_set)
    (h : s.err = s.errors.getLast?.getD 0) :
    (sensors_sets_step fuel env name s d).err =
      (sensors_sets_step fuel env name s d).errors.getLast?.getD 0 := by
  simp only [sensors_sets_step]
  cases hl : sensors_lookup_feature_name env.features_list name.prefix_ d.name with
  | none => simp [List.getLast?_concat]
  | some f =>
    by_cases hmem : f.number ∈ s.feature_list
    · simpa [hmem] using h
    · simp only [if_neg hmem]
      by_cases hr : (sensors_eval_expr fuel env name d.value 0).1 ≠ 0
      · simp [hr, List.getLast?_concat]
      · simp only [if_neg hr]
        by_cases hw1 : (sensors_set_feature fuel env name f.number
            ((sensors_eval_expr fuel env name d.value 0).2.getD s.value)).1 ≠ 0
        · simp [hw1, List.getLast?_concat]
        · simpa [hw1] using h

theorem sensors_sets_fold_err_last (fuel : Nat) (env : SensorsEnv)
    (name : sensors_chip_name) (ds : List sensors_chip_set) (s : SetsState)
    (h : s.err = s.errors.getLast?.getD 0) :
    (ds.foldl (sensors_sets_step fuel env name) s).err =
      ((ds.foldl (sensors_sets_step fuel env name) s).errors.getLast?).getD 0 := by
  induction ds generalizing s with
  | nil => exact h
  | cons d rest ih =>
    simp only [List.foldl_cons]
    exact ih _ (sensors_sets_step_err_last fuel env name s d h)

theorem sensors_chip_sets_fold_first (fuel : Nat) (env : SensorsEnv)
    (name : sensors_chip_name) (chips : List sensors_chip_name) (a : Int)
    (es : List Int) :
    (chips.foldl (sensors_chip_sets_step fuel env name) (a, es)).1 =
      if a ≠ 0 then a
      else ((((chips.filter (fun c => sensors_match_chip name c)).map
          (fun c => (sensors_do_this_chip_sets fuel env c).err)).find?
          (fun r => r != 0)).getD 0) := by
  induction chips generalizing a es with
  | nil =>
    by_cases ha : a = 0
    · simp [ha]
    · simp [ha]
  | cons c rest ih =>
    simp only [List.foldl_cons, sensors_chip_sets_step]
    by_cases hm : sensors_match_chip name c
    · simp only [hm, if_true]
      rw [ih]
      by_cases ha : a = 0
      · subst ha
        simp only [if_pos rfl, ne_eq, not_true_eq_false, if_false,
          List.filter_cons_of_pos hm, List.map_cons]
        by_cases hz : (sensors_do_this_chip_sets fuel env c).err = 0
        · rw [hz]
          simp
        · rw [List.find?_cons_of_pos _ (by simpa using hz)]
          simp [hz]
      · simp [ha]
    · have hm2 : ¬ sensors_match_chip name c = true := hm
      simp only [if_neg hm2]
      rw [ih]
      simp [List.filter_cons_of_neg hm2]

theorem sensors_sets_step_err_agnostic (fuel : Nat) (env : SensorsEnv)
    (name : sensors_chip_name) (s : SetsState) (d : sensors_chip_set) (e : Int) :
    (sensors_sets_step fuel env name { s with err := e } d).feature_list =
      (sensors_sets_step fuel env name s d).feature_list ∧
    (sensors_sets_step fuel env name { s with err := e } d).writes =
      (sensors_sets_step fuel env name s d).writes ∧
    (sensors_sets_step fuel env name { s with err := e } d).errors =
      (sensors_sets_step fuel env name s d).errors ∧
    (sensors_sets_step fuel env name { s with err := e } d).value =
      (sensors_sets_step fuel env name s d).value := by
  simp only [sensors_sets_step]
  cases hl : sensors_lookup_feature_name env.features_list name.prefix_ d.name with
  | none => simp
  | some f =>
    by_cases hmem : f.number ∈ s.feature_list
    · simp [hmem]
    · simp only [hmem, if_false]
      by_cases hr : (sensors_eval_expr fuel env name d.value 0).1 ≠ 0
      · simp [hr]
      · simp only [if_neg hr]
        by_cases hw1 : (sensors_set_feature fuel env name f.number
            ((sensors_eval_expr fuel env name d.value 0).2.getD s.value)).1 ≠ 0
        · simp [hw1]
        · simp [hw1]

/-- Concrete scenario for claim C3: one detected chip, one matching config
entry with two failing sets directives: the first names an unknown feature
(recording `SENSORS_ERR_NO_ENTRY`), the second divides by zero (recording
`-SENSORS_ERR_DIV_ZERO`). -/
def envC3 : SensorsEnv :=
  { features_list := [("p", [{ number := 7, name := "good", mode := 3,
                               mapping := none, compute_mapping := none }])],
    config_chips := [{ chips := [patP], labels := [], ignores := [], computes := [],
                       sets := [{ name := "nope", value := .val 0, lineno := 1 },
                                { name := "good",
                                  value := .binaryop .divide (.val 4) (.val 0),
                                  lineno := 2 }] }],
    proc_chips := [{ prefix_ := some "p", bus := SENSORS_CHIP_NAME_BUS_ISA, addr := 0 }],
    read_proc := fun _ _ => some 50, write_proc := fun _ _ _ => false,
    expF := fun q => q, logF := fun q => q, uninit := 0 }

/-- C3, counterexample: the claim says the bulk-set executor returns the FIRST
error encountered during the whole run.  On `envC3` the recorded error trace is
`[SENSORS_ERR_NO_ENTRY, -SENSORS_ERR_DIV_ZERO]` (in that order), yet the
returned summary is `-SENSORS_ERR_DIV_ZERO`, the last error, because
`err = res` overwrites on every failure (access.c:460, 466). -/
theorem C3_counterexample :
    sensors_do_chip_sets 1 envC3 chipP =
      (-SENSORS_ERR_DIV_ZERO, [SENSORS_ERR_NO_ENTRY, -SENSORS_ERR_DIV_ZERO]) ∧
    -SENSORS_ERR_DIV_ZERO ≠ SENSORS_ERR_NO_ENTRY := by
  exact ⟨by decide, by decide⟩

/-- C3, amended: the bulk-set executor attempts every sets directive of every
matching config entry for every matching detected chip even when individual
directives fail (a directive's outcome depends only on the deduplication set,
the carried locals and the directive itself, never on previously recorded
errors), and its return value summarizes the failures as follows: per chip the
LAST error recorded while processing that chip (0 if none), and across chips
the first nonzero per-chip summary in detected-chip order (success only if no
directive failed anywhere). -/
theorem C3_amended_summary_error (fuel : Nat) (env : SensorsEnv) :
    (∀ name, (sensors_do_this_chip_sets fuel env name).err =
      ((sensors_do_this_chip_sets fuel env name).errors.getLast?).getD 0) ∧
    (∀ name, (sensors_do_chip_sets fuel env name).1 =
      ((((env.proc_chips.filter (fun c => sensors_match_chip name c)).map
          (fun c => (sensors_do_this_chip_sets fuel env c).err)).find?
          (fun r => r != 0)).getD 0)) ∧
    (∀ name s d e,
      (sensors_sets_step fuel env name { s with err := e } d).feature_list =
        (sensors_sets_step fuel env name s d).feature_list ∧
      (sensors_sets_step fuel env name { s with err := e } d).writes =
        (sensors_sets_step fuel env name s d).writes ∧
      (sensors_sets_step fuel env name { s with err := e } d).errors =
        (sensors_sets_step fuel env name s d).errors ∧
      (sensors_sets_step fuel env name { s with err := e } d).value =
        (sensors_sets_step fuel env name s d).value) := by
  refine ⟨?_, ?_, ?_⟩
  · intro name
    exact sensors_sets_fold_err_last fuel env name _ _ (by simp)
  · intro name
    have h := sensors_chip_sets_fold_first fuel env name env.proc_chips 0 []
    simpa [sensors_do_chip_sets] using h
  · intro name s d e
    exact sensors_sets_step_err_agnostic fuel env name s d e

/-- The evaluator can only produce the codes 0, `SENSORS_ERR_NO_ENTRY` or
`-SENSORS_ERR_DIV_ZERO` itself (the variable case reports even a failing
get-feature call as 0, access.c:379-381). -/
theorem sensors_eval_expr_aux_codes (getf : Int → Int × Option Rat)
    (env : SensorsEnv) (name : sensors_chip_name) (e : sensors_expr) (v : Rat) :
    (sensors_eval_expr_aux getf env name e v).1 = 0 ∨
    (sensors_eval_expr_aux getf env name e v).1 = SENSORS_ERR_NO_ENTRY ∨
    (sensors_eval_expr_aux getf env name e v).1 = -SENSORS_ERR_DIV_ZERO := by
  induction e generalizing v with
  | val w => left; rfl
  | source => left; rfl
  | var nm =>
    simp only [sensors_eval_expr_aux]
    cases hl : sensors_lookup_feature_name env.features_list name.prefix_ nm with
    | none => right; left; rfl
    | some f =>
      by_cases hr : (getf f.number).1 = 0
      · left; simp [hr]
      · left; simp [hr]
  | unaryop op s1 ih =>
    simp only [sensors_eval_expr_aux]
    by_cases h1 : (sensors_eval_expr_aux getf env name s1 v).1 ≠ 0
    · simp only [if_pos h1]
      exact ih v
    · simp only [if_neg h1]
      cases op with
      | negate => left; rfl
      | exp => left; rfl
      | log =>
        by_cases hlt : ((sensors_eval_expr_aux getf env name s1 v).2.getD env.uninit) < 0
        · right; right; simp [hlt]
        · left; simp [hlt]
  | binaryop op s1 s2 ih1 ih2 =>
    simp only [sensors_eval_expr_aux]
    by_cases h1 : (sensors_eval_expr_aux getf env name s1 v).1 ≠ 0
    · simp only [if_pos h1]
      exact ih1 v
    · simp only [if_neg h1]
      by_cases h2 : (sensors_eval_expr_aux getf env name s2 v).1 ≠ 0
      · simp only [if_pos h2]
        exact ih2 v
      · simp only [if_neg h2]
        cases op with
        | add => left; rfl
        | sub => left; rfl
        | multiply => left; rfl
        | divide =>
          by_cases hz : ((sensors_eval_expr_aux getf env name s2 v).2.getD env.uninit) = 0
          · right; right; simp [hz]
          · left; simp [hz]


/-- On a non-wildcard name, the body of `sensors_get_feature` never reports
`WildcardsNotAllowed`, provided the expression evaluation it delegates to
never does. -/
theorem sensors_get_feature_core_ne (evalex : sensors_expr → Rat → Int × Option Rat)
    (env : SensorsEnv) (name : sensors_chip_name) (feature : Int)
    (hw : sensors_chip_name_has_wildcards name = false)
    (hev : ∀ ex val, (evalex ex val).1 ≠ -SENSORS_ERR_WILDCARDS) :
    (sensors_get_feature_core evalex env name feature).1 ≠ -SENSORS_ERR_WILDCARDS := by
  simp only [sensors_get_feature_core, hw, Bool.false_eq_true, if_false]
  split
  · simp [SENSORS_ERR_NO_ENTRY, SENSORS_ERR_WILDCARDS]
  · split
    · simp [SENSORS_ERR_NO_ENTRY, SENSORS_ERR_WILDCARDS]
    · split
      · simp [SENSORS_ERR_ACCESS_R, SENSORS_ERR_WILDCARDS]
      · split
        · simp [SENSORS_ERR_PROC, SENSORS_ERR_WILDCARDS]
        · split
          · simp [SENSORS_ERR_WILDCARDS]
          · exact hev _ _

/-- Concrete chip name with bus `AnyI2C` and no `ANY` component. -/
def chipAnyI2C : sensors_chip_name :=
  { prefix_ := some "foo", bus := SENSORS_CHIP_NAME_BUS_ANY_I2C, addr := 3 }

/-- C9, counterexample: by the spec's definition a pattern is a wildcard only
if some component is `ANY`, so `chipAnyI2C` is concrete; yet
`sensors_chip_name_has_wildcards` also counts `BUS_ANY_I2C` (access.c:144) and
`get_label` rejects the name with `WildcardsNotAllowed`, refuting the claim
that a concrete chip name is never rejected with that error. -/
theorem C9_counterexample :
    spec_has_wildcards chipAnyI2C = false ∧
    sensors_get_label envNul chipAnyI2C 1 = (-SENSORS_ERR_WILDCARDS, none) := by
  exact ⟨by decide, by decide⟩

/-- C9, amended: with the source's wildcard notion — any `ANY` component OR
bus = `AnyI2C` — every call of the four accessors on a wildcard name fails
with `WildcardsNotAllowed` whatever the catalog and config contain (the
rejection precedes every lookup), and a call on a non-wildcard name is never
rejected with `WildcardsNotAllowed`. -/
theorem C9_amended_wildcard_rejection (env : SensorsEnv) (name : sensors_chip_name)
    (feature : Int) (fuel : Nat) (value : Rat) :
    (sensors_chip_name_has_wildcards name = true →
      sensors_get_label env name feature = (-SENSORS_ERR_WILDCARDS, none) ∧
      sensors_get_ignored env name feature = -SENSORS_ERR_WILDCARDS ∧
      sensors_get_feature fuel env name feature = (-SENSORS_ERR_WILDCARDS, none) ∧
      sensors_set_feature fuel env name feature value = (-SENSORS_ERR_WILDCARDS, none)) ∧
    (sensors_chip_name_has_wildcards name = false →
      (sensors_get_label env name feature).1 ≠ -SENSORS_ERR_WILDCARDS ∧
      sensors_get_ignored env name feature ≠ -SENSORS_ERR_WILDCARDS ∧
      (sensors_get_feature fuel env name feature).1 ≠ -SENSORS_ERR_WILDCARDS ∧
      (sensors_set_feature fuel env name feature value).1 ≠ -SENSORS_ERR_WILDCARDS) := by
  constructor
  · intro hw
    refine ⟨?_, ?_, ?_, ?_⟩
    · simp [sensors_get_label, hw]
    · simp [sensors_get_ignored, hw]
    · cases fuel with
      | zero => simp [sensors_get_feature, sensors_get_feature_core, hw]
      | succ f => simp [sensors_get_feature, sensors_get_feature_core, hw]
    · simp [sensors_set_feature, hw]
  · intro hw
    refine ⟨?_, ?_, ?_, ?_⟩
    · simp only [sensors_get_label, hw, Bool.false_eq_true, if_false]
      split
      · simp [SENSORS_ERR_NO_ENTRY, SENSORS_ERR_WILDCARDS]
      · split
        · simp [SENSORS_ERR_WILDCARDS]
        · simp [SENSORS_ERR_WILDCARDS]
    · simp only [sensors_get_ignored, hw, Bool.false_eq_true, if_false]
      split
      · simp [SENSORS_ERR_NO_ENTRY, SENSORS_ERR_WILDCARDS]
      · split
        · simp [SENSORS_ERR_NO_ENTRY, SENSORS_ERR_WILDCARDS]
        · rw [sensors_ignored_loop_spec]
          split
          · simp [SENSORS_ERR_WILDCARDS]
          · simp [SENSORS_ERR_WILDCARDS]
    · cases fuel with
      | zero =>
        simp only [sensors_get_feature]
        exact sensors_get_feature_core_ne _ env name feature hw
          (fun _ _ => by decide)
      | succ f =>
        simp only [sensors_get_feature]
        refine sensors_get_feature_core_ne _ env name feature hw (fun ex val => ?_)
        rcases sensors_eval_expr_aux_codes
            (fun nr => sensors_get_feature f env name nr) env name ex val with h | h | h <;>
          rw [h] <;> decide
    · simp only [sensors_set_feature, hw, Bool.false_eq_true, if_false]
      split
      · simp [SENSORS_ERR_NO_ENTRY, SENSORS_ERR_WILDCARDS]
      · split
        · simp [SENSORS_ERR_NO_ENTRY, SENSORS_ERR_WILDCARDS]
        · split
          · simp [SENSORS_ERR_ACCESS_W, SENSORS_ERR_WILDCARDS]
          · split
            · split
              · simp [SENSORS_ERR_PROC, SENSORS_ERR_WILDCARDS]
              · simp [SENSORS_ERR_WILDCARDS]
            · split
              · rename_i ex heq hr1
                rcases sensors_eval_expr_aux_codes
                    (fun nr => sensors_get_feature fuel env name nr) env name ex value with
                  h | h | h
                · exact absurd h (by simpa [sensors_eval_expr] using hr1)
                · simp only [sensors_eval_expr]
                  rw [h]
                  decide
                · simp only [sensors_eval_expr]
                  rw [h]
                  decide
              · split
                · simp [SENSORS_ERR_PROC, SENSORS_ERR_WILDCARDS]
                · simp [SENSORS_ERR_WILDCARDS]

/-- C9, witness: a fully wildcarded name is rejected by all four accessors,
and a concrete name is not rejected with the wildcard error. -/
theorem C9_amended_witness :
    sensors_get_label envNul
      { prefix_ := none, bus := SENSORS_CHIP_NAME_BUS_ANY,
        addr := SENSORS_CHIP_NAME_ADDR_ANY } 1 = (-SENSORS_ERR_WILDCARDS, none) ∧
    (sensors_get_label envNul chipP 1).1 ≠ -SENSORS_ERR_WILDCARDS := by
  constructor
  · exact ((C9_amended_wildcard_rejection envNul _ 1 0 0).1 (by decide)).1
  · exact ((C9_amended_wildcard_rejection envNul chipP 1 0 0).2 (by decide)).1
